import Mathlib

/-!
Shallow embedding of the chatlink-fusion client (src/pages/Chat.tsx and
src/components/VisitorCounter.tsx) and proofs about the chat session
controller and the visitor counter.

Modelling conventions:
* Media streams are opaque handles; they are modelled as natural numbers.
* `uuidv4()` produces a fresh identifier; it is modelled as a `fresh : Nat`
  parameter supplied to the handler that calls it.  `new Date()` is modelled
  as a `now : Nat` parameter.
* Every call into `webRTCService` is recorded as a `ServiceCall`; every
  `toast(...)` as a `Toast`; every `setTimeout(f, d)` as a timer entry `d`.
* `findNewPeer` is asynchronous: it first runs a synchronous reset phase
  (state resets and the `connectToRandomUser` request), then suspends at
  `await`; the code after the `await` runs when the request resolves.  The
  reset phase is `findNewPeerReset`, the success continuation is
  `connectContinuation`, and the catch branch is `connectFailure`.  The
  source attaches no session tag to a request, so a resolution always runs
  the same continuation, whichever call it answers.
-/

namespace ChatLink

/-- Payload of a data-channel message, `{ type, text }` in the source. -/
structure MessageData where
  type : String
  text : String
deriving Repr, DecidableEq

/-- A chat message as built in `Chat.tsx`: `{ id: uuidv4(), sender, text,
timestamp: new Date() }`. -/
structure Message where
  id : Nat
  sender : String
  text : String
  timestamp : Nat
deriving Repr, DecidableEq

/-- A `toast(...)` call; `destructive` is true when the source passes
`variant: "destructive"`. -/
structure Toast where
  title : String
  description : String
  destructive : Bool := false
deriving Repr, DecidableEq

/-- Calls made into `webRTCService`. -/
inductive ServiceCall where
  | getLocalStream
  | connectToRandomUser
  | getRemoteStream (peerId : String)
  | disconnectFromPeer (peerId : String)
  | sendMessage (peerId : String) (payload : MessageData)
  | toggleAudio (enabled : Bool)
  | toggleVideo (enabled : Bool)
  | cleanup
deriving Repr, DecidableEq

/-- Observable side effects of one handler invocation: service calls,
toasts, and delays of timers scheduled with `setTimeout`. -/
structure Effects where
  calls : List ServiceCall := []
  toasts : List Toast := []
  timers : List Nat := []
deriving Repr, DecidableEq

/-- The React state of the `Chat` component: one field per `useState` hook. -/
structure ChatState where
  localStream : Option Nat
  remoteStream : Option Nat
  currentPeerId : Option String
  isMuted : Bool
  isVideoEnabled : Bool
  isChatOpen : Bool
  messages : List Message
  connecting : Bool
  connectionStatus : String
deriving Repr, DecidableEq

/-- The initial values of the `useState` hooks in `Chat.tsx`. -/
def initialChatState : ChatState :=
  { localStream := none
    remoteStream := none
    currentPeerId := none
    isMuted := false
    isVideoEnabled := true
    isChatOpen := false
    messages := []
    connecting := false
    connectionStatus := "Connecting..." }

/-- The `onMessage` handler (Chat.tsx lines 50-60): if `data.type === 'chat'`
append a message with a fresh id, sender `'stranger'`, the payload text and
the current time; otherwise do nothing.  The handler ignores `peerId` and
never consults `currentPeerId`; it performs no service calls and no toasts. -/
def chatOnMessage (fresh now : Nat) (peerId : String) (data : MessageData)
    (s : ChatState) : ChatState :=
  if data.type = "chat" then
    { s with messages := s.messages ++
        [{ id := fresh, sender := "stranger", text := data.text, timestamp := now }] }
  else s

/-- The `onStream` handler (Chat.tsx lines 62-71): store the remote stream,
stop the connecting overlay, toast a connected notice. -/
def chatOnStream (peerId : String) (stream : Nat) (s : ChatState) :
    ChatState × Effects :=
  ({ s with remoteStream := some stream, connecting := false },
   { toasts := [{ title := "Connected!",
                  description := "You\x27re now chatting with a stranger." }] })

/-- The `onConnectionStateChange` handler (Chat.tsx lines 73-86): on
`disconnected`, `failed` or `closed` clear the remote stream, the current
peer id and the messages, and toast a disconnect notice; it makes no
service call, schedules no timer, and in particular never calls
`findNewPeer`.  For any other state it does nothing. -/
def onConnectionStateChange (peerId connState : String) (s : ChatState) :
    ChatState × Effects :=
  if connState = "disconnected" ∨ connState = "failed" ∨ connState = "closed" then
    ({ s with remoteStream := none, currentPeerId := none, messages := [] },
     { toasts := [{ title := "Disconnected",
                    description := "The other person has left the chat." }] })
  else (s, {})

/-- The synchronous phase of `findNewPeer` (Chat.tsx lines 97-112): if a peer
is current, disconnect from it; reset remote stream, peer id and messages;
raise the connecting overlay; then issue the `connectToRandomUser` request
and suspend at the `await`. -/
def findNewPeerReset (s : ChatState) : ChatState × Effects :=
  ({ s with remoteStream := none
            currentPeerId := none
            messages := []
            connecting := true
            connectionStatus := "Looking for a partner..." },
   { calls := (match s.currentPeerId with
        | some pid => [ServiceCall.disconnectFromPeer pid]
        | none => []) ++ [ServiceCall.connectToRandomUser] })

/-- The code after the `await` in `findNewPeer` when `connectToRandomUser`
resolves with `peerId` (Chat.tsx lines 113-121): unconditionally adopt the
peer id, ask the service for the remote stream (`remote` is its answer), and
if a stream is available store it and stop the connecting overlay.  There is
no check that the resolution belongs to the currently active request. -/
def connectContinuation (peerId : String) (remote : Option Nat)
    (s : ChatState) : ChatState × Effects :=
  let s1 := { s with currentPeerId := some peerId
                     connectionStatus := "Establishing connection..." }
  match remote with
  | some st =>
      ({ s1 with remoteStream := some st, connecting := false },
       { calls := [ServiceCall.getRemoteStream peerId] })
  | none => (s1, { calls := [ServiceCall.getRemoteStream peerId] })

/-- The catch branch of `findNewPeer` (Chat.tsx lines 122-128): set the
failure status and schedule `findNewPeer` again after a fixed 3000 ms. -/
def connectFailure (s : ChatState) : ChatState × Effects :=
  ({ s with connectionStatus := "Connection failed. Retrying..." },
   { timers := [3000] })

/-- Outcome of one `connectToRandomUser` attempt: success carries the peer id
and the service's `getRemoteStream` answer for it; failure is the rejection. -/
inductive ReqOutcome where
  | success (peerId : String) (remote : Option Nat)
  | failure
deriving Repr, DecidableEq

/-- Runs the `findNewPeer` retry loop against a list of request outcomes for
the successive attempts: each attempt runs the reset phase, then its outcome
either runs the success continuation (ending the loop) or the catch branch,
which schedules the next attempt after 3000 ms.  Returns the final state and
the list of scheduled retry delays, in order.  An empty outcome list leaves
the first request pending after its reset phase. -/
def findNewPeerRun : List ReqOutcome → ChatState → ChatState × List Nat
  | [], s => ((findNewPeerReset s).1, [])
  | ReqOutcome.success p st :: _, s =>
      ((connectContinuation p st (findNewPeerReset s).1).1, [])
  | ReqOutcome.failure :: rest, s =>
      let s1 := (connectFailure (findNewPeerReset s).1).1
      let r := findNewPeerRun rest s1
      (r.1, 3000 :: r.2)

/-- The handler `handleSendMessage` (Chat.tsx lines 132-148): with no current peer it
returns immediately; otherwise it appends a local message and sends a
`{ type: 'chat', text }` payload to the peer. -/
def handleSendMessage (fresh now : Nat) (text : String) (s : ChatState) :
    ChatState × Effects :=
  match s.currentPeerId with
  | none => (s, {})
  | some pid =>
      ({ s with messages := s.messages ++
          [{ id := fresh, sender := "me", text := text, timestamp := now }] },
       { calls := [ServiceCall.sendMessage pid { type := "chat", text := text }] })

/-- The handler `handleToggleMute` (Chat.tsx lines 151-155): flip the muted flag and call
`toggleAudio` with the negation of the new mute state. -/
def handleToggleMute (s : ChatState) : ChatState × Effects :=
  let newMuteState := !s.isMuted
  ({ s with isMuted := newMuteState },
   { calls := [ServiceCall.toggleAudio (!newMuteState)] })

/-- The handler `handleToggleVideo` (Chat.tsx lines 158-162): flip the video flag and
call `toggleVideo` with the new state. -/
def handleToggleVideo (s : ChatState) : ChatState × Effects :=
  let newVideoState := !s.isVideoEnabled
  ({ s with isVideoEnabled := newVideoState },
   { calls := [ServiceCall.toggleVideo newVideoState] })

/-- The handler `handleSkip` (Chat.tsx lines 165-171): toast a finding-new-partner
notice, then run `findNewPeer`, whose request is left pending. -/
def handleSkip (s : ChatState) : ChatState × Effects :=
  let r := findNewPeerReset s
  (r.1, { calls := r.2.calls
          toasts := { title := "Finding new partner",
                      description := "Looking for someone new to chat with..." }
                    :: r.2.toasts
          timers := r.2.timers })

/-- The `init` function of the mount effect (Chat.tsx lines 31-45):
`mediaResult` is the outcome of `getLocalStream` (`none` when it throws).
On success, store the local stream and call `findNewPeer`; on failure, toast
a destructive camera-access error and stop — no peer request is made and no
retry is scheduled. -/
def init (mediaResult : Option Nat) (s : ChatState) : ChatState × Effects :=
  match mediaResult with
  | some stream =>
      let r := findNewPeerReset { s with localStream := some stream }
      (r.1, { calls := ServiceCall.getLocalStream :: r.2.calls
              toasts := r.2.toasts
              timers := r.2.timers })
  | none =>
      (s, { calls := [ServiceCall.getLocalStream]
            toasts := [{ title := "Camera access error",
                         description :=
                           "Please allow camera and microphone access to use this app.",
                         destructive := true }] })

/-- Events the controller reacts to.  `seekReset` is the synchronous phase of
a `findNewPeer` invocation; `seekSuccess`/`seekFailure` are the resolution of
a pending `connectToRandomUser` request (the source does not tag requests, so
a resolution runs the continuation regardless of which call it answers);
`skipAction` is the user pressing skip. -/
inductive ChatEvent where
  | msgEvent (fresh now : Nat) (peerId : String) (data : MessageData)
  | streamEvent (peerId : String) (stream : Nat)
  | connEvent (peerId connState : String)
  | seekReset
  | seekSuccess (peerId : String) (remote : Option Nat)
  | seekFailure
  | sendMsg (fresh now : Nat) (text : String)
  | skipAction
  | muteToggle
  | videoToggle
deriving Repr, DecidableEq

/-- State transition of one event (effects projected away). -/
def step : ChatEvent → ChatState → ChatState
  | ChatEvent.msgEvent fresh now peerId data, s => chatOnMessage fresh now peerId data s
  | ChatEvent.streamEvent peerId stream, s => (chatOnStream peerId stream s).1
  | ChatEvent.connEvent peerId cs, s => (onConnectionStateChange peerId cs s).1
  | ChatEvent.seekReset, s => (findNewPeerReset s).1
  | ChatEvent.seekSuccess p st, s => (connectContinuation p st s).1
  | ChatEvent.seekFailure, s => (connectFailure s).1
  | ChatEvent.sendMsg fresh now text, s => (handleSendMessage fresh now text s).1
  | ChatEvent.skipAction, s => (handleSkip s).1
  | ChatEvent.muteToggle, s => (handleToggleMute s).1
  | ChatEvent.videoToggle, s => (handleToggleVideo s).1

/-- Runs a sequence of events from a state. -/
def run (es : List ChatEvent) (s : ChatState) : ChatState :=
  es.foldl (fun t e => step e t) s

/-- The session is Connected exactly when a remote stream is attached
(spec section 4.2: on peer acquired with a stream available the controller
is `Connected`, else `Connecting`). -/
def chatConnected (s : ChatState) : Bool :=
  s.remoteStream.isSome

/-- Browser storage as used by `VisitorCounter.tsx`: `visitorCount` is the
`localStorage` key `visitor-count` (held as a decimal string in the source
and read back with `parseInt(.., 10)`, so modelled as the number it encodes,
`none` when the key is absent); `countedVisit` is whether the
`sessionStorage` key `counted-visit` is set. -/
structure BrowserStorage where
  visitorCount : Option Nat
  countedVisit : Bool
deriving Repr, DecidableEq

/-- The mount effect of `VisitorCounter` (VisitorCounter.tsx lines 9-23):
read the persisted count (0 when absent); if this browsing session has not
been counted, persist count+1, mark the session counted and display the new
count; otherwise display the persisted count unchanged.  Returns the updated
storage and the displayed count. -/
def visitorCounterMount (st : BrowserStorage) : BrowserStorage × Nat :=
  let currentCount := st.visitorCount.getD 0
  if !st.countedVisit then
    let newCount := currentCount + 1
    ({ visitorCount := some newCount, countedVisit := true }, newCount)
  else
    (st, currentCount)

/-- Performs `k` successive mounts of `VisitorCounter` against the same browser
storage; returns the final storage and the displayed counts in order. -/
def visitorCounterMounts : Nat → BrowserStorage → BrowserStorage × List Nat
  | 0, st => (st, [])
  | k + 1, st =>
      let r := visitorCounterMount st
      let rest := visitorCounterMounts k r.1
      (rest.1, r.2 :: rest.2)

/- ### Helper lemmas -/

/-- Once the session is marked counted, any number of mounts leaves the
storage unchanged and each mount displays the persisted count. -/
theorem visitorCounterMounts_counted (k : Nat) (st : BrowserStorage)
    (h : st.countedVisit = true) :
    visitorCounterMounts k st = (st, List.replicate k (st.visitorCount.getD 0)) := by
  induction k with
  | zero => simp [visitorCounterMounts]
  | succ k ih =>
      simp [visitorCounterMounts, visitorCounterMount, h, ih, List.replicate_succ]

/- ### Claims -/

/-- C1: the code evaluated at the failing trace.  The initial `findNewPeer`
request is pending; the user presses skip, which resets the session and
starts a second request; then the first request resolves with peer id
`"stalePeer"`.  The continuation adopts the stale peer id as the current
peer id — the claim says it never is adopted, but the source performs no
staleness check after the `await`. -/
theorem C1_stale_peer_adopted :
    (run [ChatEvent.seekReset, ChatEvent.skipAction,
          ChatEvent.seekSuccess "stalePeer" none]
        initialChatState).currentPeerId = some "stalePeer" := rfl

/-- C2 counterexample: a chat message event delivered in the initial state
(no remote stream attached, hence not Connected) leaves the message list
non-empty while the session is not Connected, refuting the claim that the
list is non-empty only while Connected. -/
theorem C2_counterexample :
    (run [ChatEvent.msgEvent 0 0 "p" { type := "chat", text := "hi" }]
        initialChatState).messages ≠ [] ∧
    chatConnected
      (run [ChatEvent.msgEvent 0 0 "p" { type := "chat", text := "hi" }]
        initialChatState) = false := by
  decide

/-- C2 amended: for every sequence of events, the message list is empty
immediately after `findNewPeer` resets state (entering SeekingPeer); the
part of the claim restricting non-emptiness to the Connected state does not
hold, because the message handler appends regardless of connection state. -/
theorem C2_empty_after_entering_seeking (es : List ChatEvent) (s : ChatState) :
    (run (es ++ [ChatEvent.seekReset]) s).messages = [] := by
  simp [run, List.foldl_append, step, findNewPeerReset]

/-- C3: starting a fresh browsing session over a persisted count `n` (or no
persisted count at all), any positive number of mounts increments the
persisted count exactly once, marks the session counted, and every mount
displays the incremented count; a first-ever visit displays 1. -/
theorem C3_visitor_count_once_per_session (n k : Nat) :
    visitorCounterMounts (k + 1) { visitorCount := some n, countedVisit := false }
      = ({ visitorCount := some (n + 1), countedVisit := true },
         List.replicate (k + 1) (n + 1)) ∧
    visitorCounterMounts (k + 1) { visitorCount := none, countedVisit := false }
      = ({ visitorCount := some 1, countedVisit := true },
         List.replicate (k + 1) 1) := by
  constructor <;>
    simp [visitorCounterMounts, visitorCounterMount,
      visitorCounterMounts_counted, List.replicate_succ]

/-- C4: sending a message with no current peer is a no-op: the state is
unchanged and no service call, toast or timer is produced. -/
theorem C4_send_without_peer_noop (fresh now : Nat) (text : String)
    (s : ChatState) (h : s.currentPeerId = none) :
    handleSendMessage fresh now text s = (s, {}) := by
  simp [handleSendMessage, h]

/-- C4 witness: the no-peer no-op at a concrete input. -/
theorem C4_send_without_peer_noop_witness :
    initialChatState.currentPeerId = none ∧
    handleSendMessage 0 0 "hi" initialChatState = (initialChatState, {}) :=
  ⟨rfl, C4_send_without_peer_noop 0 0 "hi" initialChatState rfl⟩

/-- C5: when `connectToRandomUser` fails `n` times and then succeeds with
peer `p`, the controller schedules exactly `n` retries, every one after the
same fixed 3000 ms delay (no backoff growth, no ceiling — this holds for
every `n`), and then adopts `p`; the remote stream is attached exactly when
the service already had one (Connected versus Connecting).  In particular
`n = 2` gives exactly 2 retries at 3-second intervals. -/
theorem C5_fixed_delay_unbounded_retries (n : Nat) (p : String)
    (st : Option Nat) (s : ChatState) :
    (findNewPeerRun
        (List.replicate n ReqOutcome.failure ++ [ReqOutcome.success p st]) s).2
      = List.replicate n 3000 ∧
    (findNewPeerRun
        (List.replicate n ReqOutcome.failure ++ [ReqOutcome.success p st]) s).1.currentPeerId
      = some p ∧
    (findNewPeerRun
        (List.replicate n ReqOutcome.failure ++ [ReqOutcome.success p st]) s).1.remoteStream
      = st := by
  induction n generalizing s with
  | zero =>
      cases st <;>
        simp [findNewPeerRun, connectContinuation, findNewPeerReset]
  | succ n ih =>
      have h := ih ((connectFailure (findNewPeerReset s).1).1)
      simp only [List.replicate_succ, List.cons_append, findNewPeerRun]
      exact ⟨by simp [h.1], h.2.1, h.2.2⟩

/-- C6: a connection-state event of `disconnected`, `failed` or `closed`
clears the remote stream, the current peer id and the message list, produces
exactly one toast, and makes no service call and schedules no timer — in
particular no new peer request is issued and the other state fields are
untouched. -/
theorem C6_disconnect_clears_without_reseek (peerId cs : String)
    (s : ChatState)
    (h : cs = "disconnected" ∨ cs = "failed" ∨ cs = "closed") :
    onConnectionStateChange peerId cs s =
      ({ s with remoteStream := none, currentPeerId := none, messages := [] },
       { toasts := [{ title := "Disconnected",
                      description := "The other person has left the chat." }] }) := by
  rw [onConnectionStateChange, if_pos h]

/-- C6 witness: the disconnect clearing at a concrete input. -/
theorem C6_disconnect_clears_without_reseek_witness :
    ("disconnected" = "disconnected" ∨ "disconnected" = "failed" ∨
        "disconnected" = "closed") ∧
    onConnectionStateChange "p" "disconnected" initialChatState =
      (initialChatState,
       { toasts := [{ title := "Disconnected",
                      description := "The other person has left the chat." }] }) :=
  ⟨Or.inl rfl,
   C6_disconnect_clears_without_reseek "p" "disconnected" initialChatState (Or.inl rfl)⟩

/-- C7: toggling mute twice restores the entire state and issues exactly the
two audio service calls, and toggling video twice restores the entire state
and issues exactly the two video service calls. -/
theorem C7_toggle_pairs (s : ChatState) :
    (handleToggleMute (handleToggleMute s).1).1 = s ∧
    (handleToggleMute s).2.calls ++ (handleToggleMute (handleToggleMute s).1).2.calls
      = [ServiceCall.toggleAudio s.isMuted, ServiceCall.toggleAudio (!s.isMuted)] ∧
    (handleToggleVideo (handleToggleVideo s).1).1 = s ∧
    (handleToggleVideo s).2.calls ++ (handleToggleVideo (handleToggleVideo s).1).2.calls
      = [ServiceCall.toggleVideo (!s.isVideoEnabled), ServiceCall.toggleVideo s.isVideoEnabled] := by
  cases s
  simp [handleToggleMute, handleToggleVideo]

/-- C8: when local media acquisition fails, the state is unchanged, the only
service call is the failed `getLocalStream`, a destructive error toast is
shown, no peer request is made and no timer (retry) is scheduled. -/
theorem C8_media_failure_terminal (s : ChatState) :
    init none s =
      (s, { calls := [ServiceCall.getLocalStream]
            toasts := [{ title := "Camera access error",
                         description :=
                           "Please allow camera and microphone access to use this app.",
                         destructive := true }] }) ∧
    ServiceCall.connectToRandomUser ∉ (init none s).2.calls ∧
    (init none s).2.timers = [] := by
  refine ⟨rfl, ?_, rfl⟩
  simp [init]

/-- C9: a message event whose payload has type `chat` appends a message with
sender `stranger`, the payload text and the supplied fresh id; the statement
holds for every event peer id and every state, hence also when the event's
peer id differs from the current one and when no peer is current. -/
theorem C9_chat_message_appended (fresh now : Nat) (peerId : String)
    (data : MessageData) (s : ChatState) (h : data.type = "chat") :
    chatOnMessage fresh now peerId data s =
      { s with messages := s.messages ++
          [{ id := fresh, sender := "stranger", text := data.text, timestamp := now }] } := by
  simp [chatOnMessage, h]

/-- C9 witness: a chat payload appended at a concrete input whose event peer
id does not match the (absent) current peer. -/
theorem C9_chat_message_appended_witness :
    ({ type := "chat", text := "hi" } : MessageData).type = "chat" ∧
    chatOnMessage 7 5 "otherPeer" { type := "chat", text := "hi" } initialChatState =
      { initialChatState with messages :=
          [{ id := 7, sender := "stranger", text := "hi", timestamp := 5 }] } :=
  ⟨rfl, C9_chat_message_appended 7 5 "otherPeer"
    { type := "chat", text := "hi" } initialChatState rfl⟩

/-- C10: a message event whose payload type is not `chat` leaves the state
unchanged (and the handler produces no effects at all). -/
theorem C10_non_chat_message_noop (fresh now : Nat) (peerId : String)
    (data : MessageData) (s : ChatState) (h : data.type ≠ "chat") :
    chatOnMessage fresh now peerId data s = s := by
  simp [chatOnMessage, h]

/-- C10 witness: a non-chat payload at a concrete input. -/
theorem C10_non_chat_message_noop_witness :
    ({ type := "ping", text := "hi" } : MessageData).type ≠ "chat" ∧
    chatOnMessage 0 0 "p" { type := "ping", text := "hi" } initialChatState
      = initialChatState :=
  ⟨by decide,
   C10_non_chat_message_noop 0 0 "p" { type := "ping", text := "hi" }
     initialChatState (by decide)⟩

end ChatLink
